import Mathlib

/-!
Verification development for the CML MCP server (`cml_mcp.py`).

The development shallowly embeds the session/authentication lifecycle
(`CMLAuth.request`), the response-shape normalization performed at the
call sites `get_node_interfaces`, `get_physical_interfaces` and
`link_nodes`, the interface-selection loop of `link_nodes`, the
link-creation payload negotiation of `create_link_v3`, and the readiness
poller `wait_for_lab_nodes`.  HTTP transport is abstracted as oracles
(functions giving the response to the n-th send); everything else is a
direct translation of the Python source.  All functions model the
in-file fallback implementations: the optional imports
(`cml_link_creation`, `cml_node_creation_fix`) are absent from the
repository, so the `'...' in globals()` fast paths never fire.
-/

/-! ## Basic string utilities -/

/-- Substring test on character lists: does `pat` occur contiguously in the
second argument?  Models the Python `in` operator on strings. -/
def containsSub (pat : List Char) : List Char → Bool
  | [] => pat.isEmpty
  | c :: cs => pat.isPrefixOf (c :: cs) || containsSub pat cs

/-- Python `pat in s` for strings. -/
def strContains (s pat : String) : Bool :=
  containsSub pat.data s.data

/-- Python `s.strip(chr)` for `chr = a double quote`: removes every leading and
trailing quote character.  Used by `CMLAuth.authenticate` on the token body. -/
def stripQuotes (s : String) : String :=
  ⟨((s.data.dropWhile (· == '\"')).reverse.dropWhile (· == '\"')).reverse⟩

/-- Accumulator-based whitespace splitter: Python `s.split()` with no
arguments splits on runs of whitespace and discards empty pieces. -/
def splitWsAux : List Char → List Char → List (List Char)
  | [], acc => if acc.isEmpty then [] else [acc.reverse]
  | c :: cs, acc =>
    if c.isWhitespace then
      if acc.isEmpty then splitWsAux cs []
      else acc.reverse :: splitWsAux cs []
    else splitWsAux cs (c :: acc)

/-- Python `s.split()` (no separator argument), as used by `link_nodes` on a
string-shaped interface response. -/
def pySplit (s : String) : List String :=
  (splitWsAux s.data []).map (fun l => ⟨l⟩)

/-- The fixed-width chunk decode
`[interfaces[i:i+36] for i in range(0, len(interfaces), 36)]`:
`range(0, len, 36)` enumerates `36*k` for `k < ceil(len/36)`, and slice
`[i:i+36]` is drop-then-take. -/
def chunks36 (s : String) : List String :=
  (List.range ((s.length + 35) / 36)).map (fun k => ⟨(s.data.drop (36 * k)).take 36⟩)

/-! ## Session manager (`CMLAuth`) -/

/-- An HTTP response, reduced to the fields the session manager inspects. -/
structure Response where
  status : Nat
  text : String
deriving DecidableEq

/-- httpx `raise_for_status` raises exactly for 4xx/5xx statuses. -/
def isErrorStatus (code : Nat) : Bool :=
  400 ≤ code && code ≤ 599

/-- Outcome of `CMLAuth.request` as seen by its caller: a returned response,
an `HTTPStatusError` from `raise_for_status`, or an error raised while
(re-)authenticating. -/
inductive ReqOutcome where
  | ok (r : Response)
  | httpRaised (status : Nat)
  | authRaised (status : Nat)
deriving DecidableEq

/-- Observable trace of one `CMLAuth.request` call: the bearer tokens carried
by each send of the original call (in order), the number of
re-authentications triggered by a 401, and the final outcome. -/
structure RequestTrace where
  sends : List String
  reauths : Nat
  outcome : ReqOutcome
deriving DecidableEq

namespace CMLAuth

/-- `CMLAuth.authenticate`: POST the credentials, `raise_for_status`, then
store the response body stripped of surrounding quotes as the token.
`authResp k` is the response of the k-th authentication POST of the call. -/
def authenticate (authResp : Nat → Response) (k : Nat) : Except Nat String :=
  let r := authResp k
  if isErrorStatus r.status then Except.error r.status
  else Except.ok (stripQuotes r.text)

/-- Body of `CMLAuth.request` once a token `t` is in hand (`authIdx` counts
authentications already performed in this call): send the request; on a 401
re-authenticate once, refresh the Authorization header, and resend; then
`raise_for_status`.  `send i tok` is the response to the (i+1)-th
transmission of the original call carrying bearer token `tok`. -/
def requestWithToken (authResp : Nat → Response) (send : Nat → String → Response)
    (authIdx : Nat) (t : String) : RequestTrace :=
  let r1 := send 0 t
  if r1.status = 401 then
    match authenticate authResp authIdx with
    | Except.error s => { sends := [t], reauths := 1, outcome := ReqOutcome.authRaised s }
    | Except.ok t2 =>
      let r2 := send 1 t2
      { sends := [t, t2], reauths := 1,
        outcome := if isErrorStatus r2.status then ReqOutcome.httpRaised r2.status
                   else ReqOutcome.ok r2 }
  else
    { sends := [t], reauths := 0,
      outcome := if isErrorStatus r1.status then ReqOutcome.httpRaised r1.status
                 else ReqOutcome.ok r1 }

/-- `CMLAuth.request`: authenticate first when no token is stored, then run
the send / single-401-retry / `raise_for_status` sequence. -/
def request (authResp : Nat → Response) (send : Nat → String → Response)
    (token0 : Option String) : RequestTrace :=
  match token0 with
  | none =>
    match authenticate authResp 0 with
    | Except.error s => { sends := [], reauths := 0, outcome := ReqOutcome.authRaised s }
    | Except.ok t => requestWithToken authResp send 1 t
  | some t => requestWithToken authResp send 0 t

end CMLAuth

/-! ## Response shapes and per-call-site normalization -/

/-- The decoded JSON value of an identifier-list endpoint: an array of
identifier strings, a single string, or an object (modelled by its keys in
insertion order; no consuming call site reads the values). -/
inductive RespShape where
  | vlist (ids : List String)
  | vstr (s : String)
  | vdict (keys : List String)
deriving DecidableEq

/-- Normalization inlined in `get_node_interfaces` (lines 499-514): a list is
returned directly; a string is chunked into 36-character identifiers when its
length is an exact multiple of 36 and otherwise returned unchanged; a
dictionary is returned as is. -/
def gniNormalize : RespShape → RespShape
  | RespShape.vlist ids => RespShape.vlist ids
  | RespShape.vstr s =>
    if s.length % 36 = 0 then RespShape.vlist (chunks36 s) else RespShape.vstr s
  | RespShape.vdict ks => RespShape.vdict ks

/-- Result of the normalization inlined in `get_physical_interfaces`
(lines 547-562): an error string is propagated, a recognized shape yields the
interface-id list, an oddly sized string yields the
`Unexpected interface response format` error message. -/
inductive GpiNorm where
  | errPassthrough (s : String)
  | ids (l : List String)
  | unexpectedFormat (s : String)
deriving DecidableEq

/-- Normalization inlined in `get_physical_interfaces`: a string containing
`Error` is returned as is; a list is used directly; a string is chunked when
its length is a multiple of 36 and rejected otherwise; a dictionary
contributes its keys. -/
def gpiNormalize : RespShape → GpiNorm
  | RespShape.vstr s =>
    if strContains s "Error" then GpiNorm.errPassthrough s
    else if s.length % 36 = 0 then GpiNorm.ids (chunks36 s)
    else GpiNorm.unexpectedFormat s
  | RespShape.vlist ids => GpiNorm.ids ids
  | RespShape.vdict ks => GpiNorm.ids ks

/-- Normalization inlined in `link_nodes` (lines 826-841): a list is used as
is, a string is split on whitespace (`interfaces_a.split()`), a dictionary
contributes its keys. -/
def lnNormalize : RespShape → List String
  | RespShape.vlist ids => ids
  | RespShape.vstr s => pySplit s
  | RespShape.vdict ks => ks

/-- The identifier sequence `get_node_interfaces` hands onward, when its
result is a sequence at all (the dictionary and odd-length-string cases pass
the raw value through instead). -/
def gniIds (v : RespShape) : Option (List String) :=
  match gniNormalize v with
  | RespShape.vlist ids => some ids
  | _ => none

/-- The identifier sequence `get_physical_interfaces` iterates over, when its
inline normalization succeeds. -/
def gpiIds (v : RespShape) : Option (List String) :=
  match gpiNormalize v with
  | GpiNorm.ids l => some l
  | _ => none

/-- The identifier sequence `link_nodes` iterates over (always defined: its
inline normalization has no failure case for the three shapes). -/
def lnIds (v : RespShape) : Option (List String) :=
  some (lnNormalize v)

/-! ## Tool-level embeddings with request accounting -/

/-- The not-initialized guard message returned by the string-valued tools
(`list_labs`, `get_node_interfaces`, `wait_for_lab_nodes`, ...). -/
def errNotInitMsg : String :=
  "Error: You must initialize the client first with initialize_client()"

/-- Result of `get_node_interfaces`: the guard error, or the (normalized)
response value. -/
inductive GNIResult where
  | errNotInit
  | value (v : RespShape)
deriving DecidableEq

/-- `get_node_interfaces`: guard on the global session, then one GET whose
decoded value is normalized per `gniNormalize`.  The second component counts
HTTP requests issued. -/
def get_node_interfaces (auth : Bool) (resp : RespShape) : GNIResult × Nat :=
  if auth then (GNIResult.value (gniNormalize resp), 1)
  else (GNIResult.errNotInit, 0)

/-- Lab summary fields read by `list_labs` (`lab_info.get(...)`). -/
structure LabInfo where
  title : Option String
  description : Option String
  state : Option String

/-- One formatted entry of the `list_labs` output. -/
def labLine (labId : String) (info : LabInfo) : String :=
  "- " ++ info.title.getD "Untitled" ++ " (ID: " ++ labId ++ ")\n" ++
  (match info.description with
   | some d => if d = "" then "" else "  Description: " ++ d ++ "\n"
   | none => "") ++
  "  State: " ++ info.state.getD "unknown" ++ "\n"

/-- `list_labs`: guard, then one GET of `/api/v0/labs` and pretty-printing of
the returned id-to-info map (given here as an insertion-ordered list). -/
def list_labs (auth : Bool) (labs : List (String × LabInfo)) : String × Nat :=
  if auth then
    if labs.isEmpty then ("No labs found in CML.", 1)
    else (labs.foldl (fun acc p => acc ++ labLine p.1 p.2) "Available Labs:\n\n", 1)
  else (errNotInitMsg, 0)

/-- Result of `create_lab`: the guard error dict, the missing-id error, or
the created lab id. -/
inductive CreateLabResult where
  | errNotInit
  | noLabId
  | created (labId : String)
deriving DecidableEq

/-- `create_lab`: guard, then one POST; `respId` is the `id` field of the
decoded response (`None` or falsy id yields the no-lab-ID error). -/
def create_lab (auth : Bool) (respId : Option String) : CreateLabResult × Nat :=
  if auth then
    match respId with
    | none => (CreateLabResult.noLabId, 1)
    | some id => if id = "" then (CreateLabResult.noLabId, 1) else (CreateLabResult.created id, 1)
  else (CreateLabResult.errNotInit, 0)

/-! ## Link negotiator (`create_link_v3`, `link_nodes`) -/

/-- Outcome of one POST to the links endpoint, as observed inside
`create_link_v3`: the request raised (transport or `raise_for_status`), or a
decoded JSON body whose `id` field may be absent. -/
inductive AttemptOutcome where
  | exc
  | resp (linkId : Option String)
deriving DecidableEq

/-- The two payload encodings probed by `create_link_v3`, in source order. -/
inductive Variant where
  | i1i2
  | srcDst
deriving DecidableEq

/-- JSON field names of each payload variant. -/
def Variant.fields : Variant → List String
  | Variant.i1i2 => ["i1", "i2"]
  | Variant.srcDst => ["src_int", "dst_int"]

/-- Result of `create_link_v3`. -/
inductive CLV3Result where
  | errNotInit
  | success (linkId : String)
  | allFormatsFailed (msg : String)
deriving DecidableEq

/-- The aggregate failure message returned when both payload formats fail. -/
def allFormatsFailedMsg : String :=
  "Failed to create link - all payload formats were tried and failed"

/-- `create_link_v3`: guard, then try payload `i1/i2`; a raised request or a
response without a truthy `id` falls through to payload `src_int/dst_int`;
if that too yields no truthy `id`, return the aggregate failure.  The second
component lists the variants actually POSTed, in order. -/
def create_link_v3 (auth : Bool) (o1 o2 : AttemptOutcome) : CLV3Result × List Variant :=
  if auth then
    let second : CLV3Result × List Variant :=
      match o2 with
      | AttemptOutcome.resp (some id) =>
        if id = "" then (CLV3Result.allFormatsFailed allFormatsFailedMsg, [Variant.i1i2, Variant.srcDst])
        else (CLV3Result.success id, [Variant.i1i2, Variant.srcDst])
      | _ => (CLV3Result.allFormatsFailed allFormatsFailedMsg, [Variant.i1i2, Variant.srcDst])
    match o1 with
    | AttemptOutcome.resp (some id) =>
      if id = "" then second else (CLV3Result.success id, [Variant.i1i2])
    | _ => second
  else (CLV3Result.errNotInit, [])

/-- The link id an attempt outcome delivers, under Python truthiness
(`if link_id:`): present and non-empty. -/
def usableId : AttemptOutcome → Option String
  | AttemptOutcome.resp (some id) => if id = "" then none else some id
  | _ => none

/-- Detail fields of one interface read by the `link_nodes` selection loop. -/
structure InterfaceData where
  type : Option String
  is_connected : Option Bool
deriving DecidableEq

/-- The `link_nodes` availability test:
`interface_data.get("type") == "physical" and
interface_data.get("is_connected") == False`. -/
def isAvailablePhysical (d : InterfaceData) : Bool :=
  d.type == some "physical" && d.is_connected == some false

/-- The per-node selection loop of `link_nodes` (lines 851-867): describe
each interface in list order and stop at the first physical, unconnected
one.  Returns the selected id and the ids whose detail was fetched, in
order.  `detail i` is the decoded detail object of interface `i`. -/
def findAvailablePhysical (detail : String → InterfaceData) : List String → Option String × List String
  | [] => (none, [])
  | i :: rest =>
    if isAvailablePhysical (detail i) then (some i, [i])
    else
      let (r, fetched) := findAvailablePhysical detail rest
      (r, i :: fetched)

/-- One HTTP request issued by `link_nodes`. -/
inductive ReqKind where
  | getIfaces (node : String)
  | getDetail (iface : String)
  | postLink (src dst : String)
deriving DecidableEq

/-- Is a request a POST to the link-creation endpoint? -/
def isPostLink : ReqKind → Bool
  | ReqKind.postLink _ _ => true
  | _ => false

/-- Result of `link_nodes`. -/
inductive LNResult where
  | errNotInit
  | noInterfaces (node : String)
  | noAvailablePhysical (node : String)
  | linkExc
  | noLinkId
  | success (linkId : String)
deriving DecidableEq

/-- `link_nodes` (fallback path, lines 812-919): fetch both interface lists,
normalize them per `lnNormalize`, fail on an empty list, select one free
physical interface per node via the detail-fetch loop, fail (before any link
POST) when none qualifies, then POST the `src_int/dst_int` payload once.
`post src dst` is the outcome of that POST.  The second component is the
full request trace, in order. -/
def link_nodes (auth : Bool) (nodeA nodeB : String) (ifacesA ifacesB : RespShape)
    (detail : String → InterfaceData) (post : String → String → AttemptOutcome) :
    LNResult × List ReqKind :=
  if auth then
    let la := lnNormalize ifacesA
    let lb := lnNormalize ifacesB
    let base := [ReqKind.getIfaces nodeA, ReqKind.getIfaces nodeB]
    if la.isEmpty then (LNResult.noInterfaces nodeA, base)
    else if lb.isEmpty then (LNResult.noInterfaces nodeB, base)
    else
      match findAvailablePhysical detail la with
      | (none, fa) => (LNResult.noAvailablePhysical nodeA, base ++ fa.map ReqKind.getDetail)
      | (some src, fa) =>
        match findAvailablePhysical detail lb with
        | (none, fb) =>
          (LNResult.noAvailablePhysical nodeB,
           base ++ fa.map ReqKind.getDetail ++ fb.map ReqKind.getDetail)
        | (some dst, fb) =>
          let trace := base ++ fa.map ReqKind.getDetail ++ fb.map ReqKind.getDetail ++
            [ReqKind.postLink src dst]
          match post src dst with
          | AttemptOutcome.exc => (LNResult.linkExc, trace)
          | AttemptOutcome.resp none => (LNResult.noLinkId, trace)
          | AttemptOutcome.resp (some id) =>
            if id = "" then (LNResult.noLinkId, trace) else (LNResult.success id, trace)
  else (LNResult.errNotInit, [])

/-! ## Lab readiness poller (`wait_for_lab_nodes`) -/

/-- Decoded result of `get_lab_details` as inspected by the poller: either
not a dictionary (an error string), or a dictionary with an optional
`state` field. -/
inductive LabDetailsResp where
  | nonDict (s : String)
  | detail (state : Option String)
deriving DecidableEq

/-- Decoded result of `get_lab_nodes`: an error string, or the node map
(modelled by its keys, the node ids, in insertion order). -/
inductive NodesResp where
  | errStr (s : String)
  | nodes (ids : List String)
deriving DecidableEq

/-- Observable trace of one `wait_for_lab_nodes` call. -/
structure WaitTrace where
  msg : String
  nodeSetFetches : Nat
  polls : Nat
  sleeps : Nat
deriving DecidableEq

/-- The early-return message when the lab is not started. -/
def notStartedMsg : String :=
  "Lab is not in STARTED state. Start the lab first."

/-- The full-readiness success message. -/
def allReadyMsg : String :=
  "All nodes in the lab are initialized and ready"

/-- The soft-deadline message on timeout expiry. -/
def timeoutReachedMsg (timeout : Nat) : String :=
  "Timeout reached (" ++ toString timeout ++ " seconds). Some nodes may not be fully initialized."

/-- The started-lab precondition:
`isinstance(lab_details, dict) and lab_details.get("state") == "STARTED"`. -/
def labStarted : LabDetailsResp → Bool
  | LabDetailsResp.nonDict _ => false
  | LabDetailsResp.detail st => st == some "STARTED"

/-- Number of tick iterations the `while` condition
`(now - start) < timeout` admits when node polls are instantaneous and each
non-ready tick sleeps exactly 5 seconds: elapsed time before tick `i` is
`5*i`, and `5*i < timeout` iff `i < ceil(timeout/5)`. -/
def pollBudget (timeout : Nat) : Nat :=
  (timeout + 4) / 5

/-- The polling loop of `wait_for_lab_nodes`: on each tick poll every node
(`stateAt tick node` is the state string observed); if all report `STARTED`
stop with success, else sleep 5 seconds and re-check the deadline.  The
first argument is the remaining tick budget (see `pollBudget`); the result
is the final `all_ready` flag and the number of ticks executed. -/
def pollLoop (nodeIds : List String) (stateAt : Nat → String → String) : Nat → Nat → Bool × Nat
  | 0, _ => (false, 0)
  | b + 1, tick =>
    let allReady := nodeIds.all (fun n => stateAt tick n == "STARTED")
    if allReady then (true, 1)
    else
      let (r, k) := pollLoop nodeIds stateAt b (tick + 1)
      (r, k + 1)

/-- `wait_for_lab_nodes`: guard on the session, early return when the lab is
not `STARTED` (before fetching the node set), propagate a `get_lab_nodes`
error string, else run the polling loop and report either full readiness or
the soft timeout.  `polls` counts per-node state GETs (every node is polled
on every tick); `sleeps` counts 5-second sleeps (every tick except a final
all-ready one). -/
def wait_for_lab_nodes (auth : Bool) (labDetails : LabDetailsResp) (nodesResp : NodesResp)
    (stateAt : Nat → String → String) (timeout : Nat) : WaitTrace :=
  if auth then
    if labStarted labDetails then
      match nodesResp with
      | NodesResp.errStr s => { msg := s, nodeSetFetches := 1, polls := 0, sleeps := 0 }
      | NodesResp.nodes ids =>
        let (ready, ticks) := pollLoop ids stateAt (pollBudget timeout) 0
        { msg := if ready then allReadyMsg else timeoutReachedMsg timeout,
          nodeSetFetches := 1,
          polls := ticks * ids.length,
          sleeps := if ready then ticks - 1 else ticks }
    else { msg := notStartedMsg, nodeSetFetches := 0, polls := 0, sleeps := 0 }
  else { msg := errNotInitMsg, nodeSetFetches := 0, polls := 0, sleeps := 0 }

/-! ## Concrete inputs used by witnesses and counterexamples -/

/-- A 36-character identifier-like string. -/
def s36 : String := ⟨List.replicate 36 'a'⟩

/-- A 37-character string, not a multiple of 36. -/
def s37 : String := ⟨List.replicate 37 'a'⟩

/-- Two concatenated 36-character identifiers, 72 characters in all. -/
def s72 : String := ⟨List.replicate 72 'a'⟩

/-- Authentication oracle for witnesses: every authentication POST succeeds
with a quoted token body. -/
def wAuthResp : Nat → Response :=
  fun _ => { status := 200, text := "\"tokB\"" }

/-- Send oracle for witnesses: every transmission of the original call is
answered 401. -/
def wSend : Nat → String → Response :=
  fun _ _ => { status := 401, text := "" }

/-- Interface-detail oracle: `A` is physical but connected, every other
interface (in particular `B` and `C`) is physical and free. -/
def exDetail : String → InterfaceData :=
  fun i =>
    if i = "A" then { type := some "physical", is_connected := some true }
    else { type := some "physical", is_connected := some false }

/-- Interface-detail oracle: every interface is physical but connected. -/
def exDetailBusy : String → InterfaceData :=
  fun _ => { type := some "physical", is_connected := some true }

/-- Link-POST oracle: every POST succeeds with link id `L`. -/
def exPost : String → String → AttemptOutcome :=
  fun _ _ => AttemptOutcome.resp (some "L")

/-- Node-state oracle: from tick 1 on every node reports `STARTED`; on
tick 0 only `n1` does. -/
def exStateAt : Nat → String → String :=
  fun t n => if 1 ≤ t then "STARTED" else if n = "n1" then "STARTED" else "BOOTED"

/-- Node-state oracle: no node ever reports `STARTED`. -/
def exStateNever : Nat → String → String :=
  fun _ _ => "BOOTED"

/-! ## Helper lemmas about the 36-character chunk decode -/

/-- Flattening the successive 36-wide windows of a list reconstructs its
prefix of length `36 * N`. -/
theorem windows_flatten (l : List Char) :
    ∀ N : Nat, ((List.range N).map (fun k => (l.drop (36 * k)).take 36)).flatten = l.take (36 * N)
  | 0 => by simp
  | N + 1 => by
    rw [List.range_succ, List.map_append, List.flatten_append, windows_flatten l N]
    simp [Nat.mul_succ, List.take_add]

/-- The chunk strings of `chunks36`, as character lists. -/
theorem chunks36_data (s : String) :
    (chunks36 s).map String.data =
      (List.range ((s.length + 35) / 36)).map (fun k => (s.data.drop (36 * k)).take 36) := by
  simp [chunks36, List.map_map, Function.comp]

/-- A string of 36-multiple length decodes into exactly `len / 36` chunks. -/
theorem chunks36_length (s : String) (h : s.length % 36 = 0) :
    (chunks36 s).length = s.length / 36 := by
  simp [chunks36]
  omega

/-- Every chunk of a 36-multiple-length string has exactly 36 characters. -/
theorem chunks36_mem_length (s : String) (h : s.length % 36 = 0) :
    ∀ c ∈ chunks36 s, c.length = 36 := by
  intro c hc
  simp only [chunks36, List.mem_map, List.mem_range] at hc
  obtain ⟨k, hk, rfl⟩ := hc
  show ((s.data.drop (36 * k)).take 36).length = 36
  rw [List.length_take, List.length_drop]
  have hlen : s.length = s.data.length := rfl
  omega

/-- Folding string append over a string list concatenates the underlying
character lists. -/
theorem foldl_append_data (ls : List String) (acc : String) :
    (List.foldl (· ++ ·) acc ls).data = acc.data ++ (ls.map String.data).flatten := by
  induction ls generalizing acc with
  | nil => simp
  | cons x xs ih => simp [List.foldl_cons, ih, String.data_append]

/-- Concatenating the chunks of a 36-multiple-length string restores it. -/
theorem join_chunks36 (s : String) (h : s.length % 36 = 0) :
    String.join (chunks36 s) = s := by
  apply String.ext
  rw [String.join, foldl_append_data, chunks36_data, windows_flatten]
  have hlen : s.length = s.data.length := rfl
  have h36 : 36 * ((s.length + 35) / 36) = s.data.length := by omega
  simp [h36]

/-! ## Session manager lemmas -/

/-- Within `requestWithToken` the original call is transmitted at most
twice, whatever the transport answers. -/
theorem requestWithToken_sends_le (authResp : Nat → Response) (send : Nat → String → Response)
    (aIdx : Nat) (t : String) :
    (CMLAuth.requestWithToken authResp send aIdx t).sends.length ≤ 2 := by
  by_cases h : (send 0 t).status = 401
  · simp only [CMLAuth.requestWithToken, h, if_true]
    cases h2 : CMLAuth.authenticate authResp aIdx <;> simp [h2]
  · simp [CMLAuth.requestWithToken, h]

/-- On a first 401 with a successful re-authentication, the call is resent
exactly once with the fresh token and the second response goes through
`raise_for_status`. -/
theorem requestWithToken_401 (authResp : Nat → Response) (send : Nat → String → Response)
    (aIdx : Nat) (t t2 : String)
    (h1 : (send 0 t).status = 401) (h2 : CMLAuth.authenticate authResp aIdx = Except.ok t2) :
    CMLAuth.requestWithToken authResp send aIdx t =
      { sends := [t, t2], reauths := 1,
        outcome := if isErrorStatus (send 1 t2).status then ReqOutcome.httpRaised (send 1 t2).status
                   else ReqOutcome.ok (send 1 t2) } := by
  simp [CMLAuth.requestWithToken, h1, h2]

/-! ## Interface resolver and poller lemmas -/

/-- When no interface in the list qualifies, the selection loop returns
no interface and has fetched the detail of every listed interface. -/
theorem findAvailablePhysical_none (detail : String → InterfaceData) (l : List String)
    (h : ∀ x ∈ l, isAvailablePhysical (detail x) = false) :
    findAvailablePhysical detail l = (none, l) := by
  induction l with
  | nil => rfl
  | cons x xs ih =>
    simp [findAvailablePhysical, h x (List.mem_cons_self x xs),
      ih (fun y hy => h y (List.mem_cons_of_mem x hy))]

/-- The polling loop never executes more ticks than its budget. -/
theorem pollLoop_ticks_le (ids : List String) (stateAt : Nat → String → String) :
    ∀ b tick, (pollLoop ids stateAt b tick).2 ≤ b := by
  intro b
  induction b with
  | zero => intro tick; simp [pollLoop]
  | succ b ih =>
    intro tick
    by_cases hr : ids.all (fun n => stateAt tick n == "STARTED")
    · simp [pollLoop, hr]
    · have := ih (tick + 1)
      cases hpl : pollLoop ids stateAt b (tick + 1) with
      | mk r k =>
        rw [hpl] at this
        simp [pollLoop, hr, hpl]
        omega

/-- When the loop reports readiness, at its last executed tick every node
reported `STARTED`. -/
theorem pollLoop_ready_last (ids : List String) (stateAt : Nat → String → String) :
    ∀ b tick, (pollLoop ids stateAt b tick).1 = true →
      1 ≤ (pollLoop ids stateAt b tick).2 ∧
      ids.all (fun n => stateAt (tick + (pollLoop ids stateAt b tick).2 - 1) n == "STARTED") = true := by
  intro b
  induction b with
  | zero => intro tick h; simp [pollLoop] at h
  | succ b ih =>
    intro tick
    by_cases hr : ids.all (fun n => stateAt tick n == "STARTED")
    · intro _
      simp [pollLoop, hr]
    · cases hpl : pollLoop ids stateAt b (tick + 1) with
      | mk r k =>
        intro h
        have hmain : pollLoop ids stateAt (b + 1) tick = (r, k + 1) := by
          simp [pollLoop, hr, hpl]
        rw [hmain] at h ⊢
        simp at h
        have := ih (tick + 1)
        rw [hpl] at this
        have h2 := this h
        simp at h2 ⊢
        exact h2.2

/-- When the loop times out it has consumed its whole tick budget, and no
executed tick saw every node `STARTED`. -/
theorem pollLoop_false (ids : List String) (stateAt : Nat → String → String) :
    ∀ b tick, (pollLoop ids stateAt b tick).1 = false →
      (pollLoop ids stateAt b tick).2 = b ∧
      ∀ j < b, ids.all (fun n => stateAt (tick + j) n == "STARTED") = false := by
  intro b
  induction b with
  | zero => intro tick _; exact ⟨rfl, by omega⟩
  | succ b ih =>
    intro tick
    by_cases hr : ids.all (fun n => stateAt tick n == "STARTED")
    · intro h
      simp [pollLoop, hr] at h
    · cases hpl : pollLoop ids stateAt b (tick + 1) with
      | mk r k =>
        intro h
        have hmain : pollLoop ids stateAt (b + 1) tick = (r, k + 1) := by
          simp [pollLoop, hr, hpl]
        rw [hmain] at h ⊢
        simp at h
        have := ih (tick + 1)
        rw [hpl] at this
        have h2 := this h
        have hk : k = b := h2.1
        refine ⟨by simp [hk], ?_⟩
        intro j hj
        cases j with
        | zero => simpa using hr
        | succ j' =>
          have e : tick + (j' + 1) = tick + 1 + j' := by omega
          rw [e]
          exact h2.2 j' (by omega)

/-! ## Claim theorems -/

/-- C1 (confirmed): every `CMLAuth.request` call transmits the original
request at most twice; when the first response is a 401 and the triggered
re-authentication succeeds, exactly one re-authentication happens and the
call is retried exactly once, carrying the fresh token; a 401 on the retry
surfaces as an `HTTPStatusError` with no third transmission. -/
theorem request_reauths_once_on_401 (authResp : Nat → Response) (send : Nat → String → Response)
    (tok0 : Option String) :
    (CMLAuth.request authResp send tok0).sends.length ≤ 2 ∧
    (∀ t, tok0 = some t → (send 0 t).status = 401 →
      ∀ t2, CMLAuth.authenticate authResp 0 = Except.ok t2 →
        (CMLAuth.request authResp send tok0).reauths = 1 ∧
        (CMLAuth.request authResp send tok0).sends = [t, t2] ∧
        ((send 1 t2).status = 401 →
          (CMLAuth.request authResp send tok0).outcome = ReqOutcome.httpRaised 401)) := by
  constructor
  · cases tok0 with
    | none =>
      simp only [CMLAuth.request]
      cases h : CMLAuth.authenticate authResp 0 with
      | error s => simp
      | ok t => exact requestWithToken_sends_le authResp send 1 t
    | some t => exact requestWithToken_sends_le authResp send 0 t
  · intro t ht h401 t2 hauth
    subst ht
    have h := requestWithToken_401 authResp send 0 t t2 h401 hauth
    have hreq : CMLAuth.request authResp send (some t) = CMLAuth.requestWithToken authResp send 0 t := rfl
    rw [hreq, h]
    refine ⟨rfl, rfl, ?_⟩
    intro h2
    simp [h2]
    decide

/-- Witness for C1: with a transport answering 401 to both transmissions
and an authentication endpoint issuing token `tokB`, the trace shows one
re-authentication, the two tokens sent in order, and the surfaced 401. -/
theorem request_reauths_once_on_401_witness :
    (CMLAuth.request wAuthResp wSend (some "tokA")).reauths = 1 ∧
    (CMLAuth.request wAuthResp wSend (some "tokA")).sends = ["tokA", "tokB"] ∧
    (CMLAuth.request wAuthResp wSend (some "tokA")).outcome = ReqOutcome.httpRaised 401 ∧
    (CMLAuth.request wAuthResp wSend (some "tokA")).sends.length ≤ 2 := by
  have h := request_reauths_once_on_401 wAuthResp wSend (some "tokA")
  have h2 := h.2 "tokA" rfl (by rfl) "tokB" (by rfl)
  exact ⟨h2.1, h2.2.1, h2.2.2 (by rfl), h.1⟩

/-- C2 (counterexample): when both payload variants fail, `create_link_v3`
does attempt both, but its aggregate failure is the fixed message
`Failed to create link - all payload formats were tried and failed`, which
names neither variant (none of the field names `i1`, `i2`, `src_int`,
`dst_int` occur in it) — refuting the claim that the aggregate failure
names all attempted variants. -/
theorem exhausted_variants_message_unnamed :
    create_link_v3 true AttemptOutcome.exc AttemptOutcome.exc =
      (CLV3Result.allFormatsFailed allFormatsFailedMsg, [Variant.i1i2, Variant.srcDst]) ∧
    strContains allFormatsFailedMsg "i1" = false ∧
    strContains allFormatsFailedMsg "i2" = false ∧
    strContains allFormatsFailedMsg "src_int" = false ∧
    strContains allFormatsFailedMsg "dst_int" = false := by
  decide

/-- C2 (corrected): payload variants are attempted strictly in the order
`i1/i2` then `src_int/dst_int`; a failed or id-less first attempt does not
abort the sequence; the identifier of the first attempt with a usable link
id is returned; and when both variants are exhausted a fixed aggregate
failure message is returned stating that all payload formats were tried and
failed (without naming the individual variants). -/
theorem create_link_v3_negotiation (o1 o2 : AttemptOutcome) :
    (create_link_v3 true o1 o2).2.head? = some Variant.i1i2 ∧
    (usableId o1 = none → (create_link_v3 true o1 o2).2 = [Variant.i1i2, Variant.srcDst]) ∧
    (∀ id, usableId o1 = some id →
      create_link_v3 true o1 o2 = (CLV3Result.success id, [Variant.i1i2])) ∧
    (usableId o1 = none → ∀ id, usableId o2 = some id →
      create_link_v3 true o1 o2 = (CLV3Result.success id, [Variant.i1i2, Variant.srcDst])) ∧
    (usableId o1 = none → usableId o2 = none →
      create_link_v3 true o1 o2 =
        (CLV3Result.allFormatsFailed allFormatsFailedMsg, [Variant.i1i2, Variant.srcDst])) := by
  rcases o1 with _ | ⟨_ | id1⟩ <;> rcases o2 with _ | ⟨_ | id2⟩ <;>
    simp [create_link_v3, usableId]
  all_goals try (by_cases h1 : id1 = "" <;> simp [h1])
  all_goals try (by_cases h2 : id2 = "" <;> simp [h2])

/-- Witness for C2: a first attempt answering with a falsy (empty) id falls
through and the second variant's id is returned. -/
theorem create_link_v3_negotiation_witness :
    create_link_v3 true (AttemptOutcome.resp (some "")) (AttemptOutcome.resp (some "L2")) =
      (CLV3Result.success "L2", [Variant.i1i2, Variant.srcDst]) := by
  exact (create_link_v3_negotiation (AttemptOutcome.resp (some ""))
    (AttemptOutcome.resp (some "L2"))).2.2.2.1 (by decide) "L2" (by decide)

/-- C3 (counterexample): a 37-character string is not normalized to a
one-element sequence at `get_physical_interfaces`: its inline normalization
returns the `Unexpected interface response format` failure instead. -/
theorem gpi_len37_string_is_failure :
    gpiNormalize (RespShape.vstr s37) = GpiNorm.unexpectedFormat s37 ∧
    gpiNormalize (RespShape.vstr s37) ≠ GpiNorm.ids [s37] := by
  decide

/-- C3 (corrected): a string whose length is an exact multiple of 36 is
split by both `get_node_interfaces` and `get_physical_interfaces` into
exactly `len / 36` chunks of exactly 36 characters whose concatenation is
the original string; a string of any other length is returned whole and
unchanged (not as a sequence, and not a failure) by `get_node_interfaces`,
while `get_physical_interfaces` surfaces an unexpected-format failure for
it. -/
theorem string_normalization_cases (s : String) :
    (s.length % 36 = 0 →
      gniNormalize (RespShape.vstr s) = RespShape.vlist (chunks36 s) ∧
      (chunks36 s).length = s.length / 36 ∧
      (∀ c ∈ chunks36 s, c.length = 36) ∧
      String.join (chunks36 s) = s ∧
      (strContains s "Error" = false → gpiNormalize (RespShape.vstr s) = GpiNorm.ids (chunks36 s))) ∧
    (¬(s.length % 36 = 0) →
      gniNormalize (RespShape.vstr s) = RespShape.vstr s ∧
      (strContains s "Error" = false → gpiNormalize (RespShape.vstr s) = GpiNorm.unexpectedFormat s)) := by
  constructor
  · intro h
    refine ⟨by simp [gniNormalize, h], chunks36_length s h, chunks36_mem_length s h,
      join_chunks36 s h, ?_⟩
    intro he
    simp [gpiNormalize, he, h]
  · intro h
    refine ⟨by simp [gniNormalize, h], ?_⟩
    intro he
    simp [gpiNormalize, he, h]

/-- Witness for C3: the 72-character string splits into two chunks whose
concatenation restores it, and the 37-character string passes through
`get_node_interfaces` whole while `get_physical_interfaces` rejects it. -/
theorem string_normalization_cases_witness :
    gniNormalize (RespShape.vstr s72) = RespShape.vlist (chunks36 s72) ∧
    (chunks36 s72).length = 2 ∧
    String.join (chunks36 s72) = s72 ∧
    gniNormalize (RespShape.vstr s37) = RespShape.vstr s37 ∧
    gpiNormalize (RespShape.vstr s37) = GpiNorm.unexpectedFormat s37 := by
  have h72 := (string_normalization_cases s72).1 (by decide)
  have h37 := (string_normalization_cases s37).2 (by decide)
  refine ⟨h72.1, ?_, h72.2.2.2.1, h37.1, h37.2 (by decide)⟩
  rw [h72.2.1]
  decide

/-- C4 (counterexample): on the 72-character concatenated-identifier string
the call sites disagree: `get_node_interfaces` computes the two 36-character
identifiers while `link_nodes` (which splits on whitespace) computes the
single 72-character element, so the per-call-site normalizations are not
equal as functions. -/
theorem call_site_normalizations_differ :
    gniIds (RespShape.vstr s72) = some [s36, s36] ∧
    lnIds (RespShape.vstr s72) = some [s72] ∧
    gniIds (RespShape.vstr s72) ≠ lnIds (RespShape.vstr s72) := by
  decide

/-- C4 (corrected): the three call sites agree on the ordered-sequence
case, and `get_node_interfaces` and `get_physical_interfaces` agree on
36-multiple strings (identical chunking); but the mapping case yields keys
only at `get_physical_interfaces` and `link_nodes` (`get_node_interfaces`
returns the mapping unchanged), and `link_nodes` normalizes strings by
whitespace-splitting, which disagrees with the chunk rule on a 72-character
identifier string. -/
theorem call_site_normalizations_compared :
    (∀ ids, gniIds (RespShape.vlist ids) = some ids ∧ gpiIds (RespShape.vlist ids) = some ids ∧
      lnIds (RespShape.vlist ids) = some ids) ∧
    (∀ s : String, s.length % 36 = 0 → strContains s "Error" = false →
      gniIds (RespShape.vstr s) = some (chunks36 s) ∧ gpiIds (RespShape.vstr s) = some (chunks36 s)) ∧
    (∀ ks, gniIds (RespShape.vdict ks) = none ∧ gpiIds (RespShape.vdict ks) = some ks ∧
      lnIds (RespShape.vdict ks) = some ks) ∧
    (∀ s, lnIds (RespShape.vstr s) = some (pySplit s)) ∧
    gniIds (RespShape.vstr s72) ≠ lnIds (RespShape.vstr s72) := by
  refine ⟨?_, ?_, ?_, ?_, by decide⟩
  · intro ids; exact ⟨rfl, rfl, rfl⟩
  · intro s h he
    constructor
    · simp [gniIds, gniNormalize, h]
    · simp [gpiIds, gpiNormalize, he, h]
  · intro ks; exact ⟨rfl, rfl, rfl⟩
  · intro s; rfl

/-- Witness for C4: both chunking call sites compute the chunk sequence on
the 72-character string. -/
theorem call_site_normalizations_compared_witness :
    gniIds (RespShape.vstr s72) = some (chunks36 s72) ∧
    gpiIds (RespShape.vstr s72) = some (chunks36 s72) := by
  exact call_site_normalizations_compared.2.1 s72 (by decide) (by decide)

/-- C5 (confirmed): when the interface list is any prefix of non-qualifying
interfaces followed by a qualifying one, the `link_nodes` selection loop
returns that first qualifying interface and fetches detail exactly for the
prefix and the match — interfaces after the first match are never
fetched. -/
theorem findAvailablePhysical_first_match (detail : String → InterfaceData)
    (l1 : List String) (b : String) (l2 : List String)
    (h1 : ∀ x ∈ l1, isAvailablePhysical (detail x) = false)
    (hb : isAvailablePhysical (detail b) = true) :
    findAvailablePhysical detail (l1 ++ b :: l2) = (some b, l1 ++ [b]) := by
  induction l1 with
  | nil => simp [findAvailablePhysical, hb]
  | cons x xs ih =>
    have hx := h1 x (List.mem_cons_self x xs)
    have ih2 := ih (fun y hy => h1 y (List.mem_cons_of_mem x hy))
    simp [findAvailablePhysical, hx, ih2]

/-- Witness for C5: with `A` physical-but-connected, `B` physical-and-free
and `C` present, the loop returns `B` after exactly the two fetches
`[A, B]` and never fetches `C`. -/
theorem findAvailablePhysical_first_match_witness :
    findAvailablePhysical exDetail ["A", "B", "C"] = (some "B", ["A", "B"]) ∧
    ("C" ∈ (findAvailablePhysical exDetail ["A", "B", "C"]).2) = False := by
  have h := findAvailablePhysical_first_match exDetail ["A"] "B" ["C"] (by decide) (by decide)
  exact ⟨h, by decide⟩

/-- C6 (confirmed): whenever either node has no physical, unconnected
interface (including the empty-list case), `link_nodes` returns one of the
distinct precondition-failure results and its request trace contains no
POST to the link-creation endpoint. -/
theorem link_nodes_precondition_failure (nodeA nodeB : String) (ifA ifB : RespShape)
    (detail : String → InterfaceData) (post : String → String → AttemptOutcome)
    (h : (∀ x ∈ lnNormalize ifA, isAvailablePhysical (detail x) = false) ∨
         (∀ x ∈ lnNormalize ifB, isAvailablePhysical (detail x) = false)) :
    ((link_nodes true nodeA nodeB ifA ifB detail post).1 = LNResult.noInterfaces nodeA ∨
     (link_nodes true nodeA nodeB ifA ifB detail post).1 = LNResult.noInterfaces nodeB ∨
     (link_nodes true nodeA nodeB ifA ifB detail post).1 = LNResult.noAvailablePhysical nodeA ∨
     (link_nodes true nodeA nodeB ifA ifB detail post).1 = LNResult.noAvailablePhysical nodeB) ∧
    (link_nodes true nodeA nodeB ifA ifB detail post).2.all (fun q => !isPostLink q) = true := by
  by_cases ha : (lnNormalize ifA).isEmpty
  · constructor
    · left
      simp [link_nodes, ha]
    · simp [link_nodes, ha, isPostLink]
  · by_cases hb : (lnNormalize ifB).isEmpty
    · constructor
      · right; left
        simp [link_nodes, ha, hb]
      · simp [link_nodes, ha, hb, isPostLink]
    · rcases h with h | h
      · have hfa := findAvailablePhysical_none detail (lnNormalize ifA) h
        constructor
        · right; right; left
          simp [link_nodes, ha, hb, hfa]
        · simp [link_nodes, ha, hb, hfa, isPostLink, List.all_append]
      · have hfb := findAvailablePhysical_none detail (lnNormalize ifB) h
        cases hfa : findAvailablePhysical detail (lnNormalize ifA) with
        | mk srcO fa =>
          cases srcO with
          | none =>
            constructor
            · right; right; left
              simp [link_nodes, ha, hb, hfa]
            · simp [link_nodes, ha, hb, hfa, isPostLink, List.all_append]
          | some src =>
            constructor
            · right; right; right
              simp [link_nodes, ha, hb, hfa, hfb]
            · simp [link_nodes, ha, hb, hfa, hfb, isPostLink, List.all_append]

/-- Witness for C6: with every interface connected, `link_nodes` reports
that the first node has no available physical interface and its trace
contains no link POST. -/
theorem link_nodes_precondition_failure_witness :
    (link_nodes true "n1" "n2" (RespShape.vlist ["i"]) (RespShape.vlist ["j"])
      exDetailBusy exPost).1 = LNResult.noAvailablePhysical "n1" ∧
    (link_nodes true "n1" "n2" (RespShape.vlist ["i"]) (RespShape.vlist ["j"])
      exDetailBusy exPost).2.all (fun q => !isPostLink q) = true := by
  have h := link_nodes_precondition_failure "n1" "n2" (RespShape.vlist ["i"])
    (RespShape.vlist ["j"]) exDetailBusy exPost (Or.inl (by decide))
  exact ⟨by decide, h.2⟩

/-- C7 (confirmed): when the lab is not in `STARTED` state (or the detail
response is not a dictionary), `wait_for_lab_nodes` returns the
not-started message immediately, without fetching the node set, without a
single per-node poll, and without sleeping. -/
theorem wait_not_started_returns_immediately (labDetails : LabDetailsResp) (nodesResp : NodesResp)
    (stateAt : Nat → String → String) (timeout : Nat)
    (h : labStarted labDetails = false) :
    wait_for_lab_nodes true labDetails nodesResp stateAt timeout =
      { msg := notStartedMsg, nodeSetFetches := 0, polls := 0, sleeps := 0 } := by
  simp [wait_for_lab_nodes, h]

/-- Witness for C7: a lab in `STOPPED` state yields the not-started result
with zero polls and zero sleeps. -/
theorem wait_not_started_returns_immediately_witness :
    wait_for_lab_nodes true (LabDetailsResp.detail (some "STOPPED")) (NodesResp.nodes ["n1"])
      exStateNever 60 =
      { msg := notStartedMsg, nodeSetFetches := 0, polls := 0, sleeps := 0 } := by
  exact wait_not_started_returns_immediately (LabDetailsResp.detail (some "STOPPED"))
    (NodesResp.nodes ["n1"]) exStateNever 60 (by decide)

/-- C8 (confirmed): on a started lab the poller fetches the node set once,
polls every node on every tick, executes at most `timeout / 5 + 1` ticks
(termination), reports success exactly when some tick saw every node
`STARTED`, and otherwise returns the soft timeout message after its sleeps
total at least the timeout, no executed tick having seen full readiness. -/
theorem wait_poller_soft_deadline (ids : List String) (stateAt : Nat → String → String)
    (timeout : Nat) :
    (pollLoop ids stateAt (pollBudget timeout) 0).2 ≤ timeout / 5 + 1 ∧
    (wait_for_lab_nodes true (LabDetailsResp.detail (some "STARTED")) (NodesResp.nodes ids)
      stateAt timeout).nodeSetFetches = 1 ∧
    (wait_for_lab_nodes true (LabDetailsResp.detail (some "STARTED")) (NodesResp.nodes ids)
      stateAt timeout).polls = (pollLoop ids stateAt (pollBudget timeout) 0).2 * ids.length ∧
    ((pollLoop ids stateAt (pollBudget timeout) 0).1 = true →
      (wait_for_lab_nodes true (LabDetailsResp.detail (some "STARTED")) (NodesResp.nodes ids)
        stateAt timeout).msg = allReadyMsg ∧
      ids.all (fun n => stateAt ((pollLoop ids stateAt (pollBudget timeout) 0).2 - 1) n == "STARTED") = true) ∧
    ((pollLoop ids stateAt (pollBudget timeout) 0).1 = false →
      (wait_for_lab_nodes true (LabDetailsResp.detail (some "STARTED")) (NodesResp.nodes ids)
        stateAt timeout).msg = timeoutReachedMsg timeout ∧
      (wait_for_lab_nodes true (LabDetailsResp.detail (some "STARTED")) (NodesResp.nodes ids)
        stateAt timeout).sleeps = (pollLoop ids stateAt (pollBudget timeout) 0).2 ∧
      timeout ≤ 5 * (pollLoop ids stateAt (pollBudget timeout) 0).2 ∧
      ∀ j < (pollLoop ids stateAt (pollBudget timeout) 0).2,
        ids.all (fun n => stateAt j n == "STARTED") = false) := by
  cases hP : pollLoop ids stateAt (pollBudget timeout) 0 with
  | mk ready ticks =>
    have hwait : wait_for_lab_nodes true (LabDetailsResp.detail (some "STARTED"))
        (NodesResp.nodes ids) stateAt timeout =
        { msg := if ready then allReadyMsg else timeoutReachedMsg timeout,
          nodeSetFetches := 1,
          polls := ticks * ids.length,
          sleeps := if ready then ticks - 1 else ticks } := by
      simp [wait_for_lab_nodes, labStarted, hP]
    have hle := pollLoop_ticks_le ids stateAt (pollBudget timeout) 0
    rw [hP] at hle
    refine ⟨by simp [pollBudget] at hle ⊢; omega, by rw [hwait], by rw [hwait], ?_, ?_⟩
    · intro h
      simp at h
      subst h
      have hlast := pollLoop_ready_last ids stateAt (pollBudget timeout) 0
      rw [hP] at hlast
      have h2 := hlast rfl
      simp at h2 ⊢
      rw [hwait]
      exact ⟨rfl, h2.2⟩
    · intro h
      simp at h
      subst h
      have hfalse := pollLoop_false ids stateAt (pollBudget timeout) 0
      rw [hP] at hfalse
      have h2 := hfalse rfl
      simp at h2 ⊢
      rw [hwait]
      refine ⟨rfl, rfl, ?_, ?_⟩
      · have : ticks = pollBudget timeout := h2.1
        simp [this, pollBudget]
        omega
      · intro j hj
        have := h2.2 j (by omega)
        simpa using this

/-- Witness for C8: two nodes that all report `STARTED` from the second
tick on, under a 7-second timeout, yield the success message after 4 node
polls within the tick bound. -/
theorem wait_poller_soft_deadline_witness :
    (wait_for_lab_nodes true (LabDetailsResp.detail (some "STARTED")) (NodesResp.nodes ["n1", "n2"])
      exStateAt 7).msg = allReadyMsg ∧
    (wait_for_lab_nodes true (LabDetailsResp.detail (some "STARTED")) (NodesResp.nodes ["n1", "n2"])
      exStateAt 7).polls = 4 ∧
    (pollLoop ["n1", "n2"] exStateAt (pollBudget 7) 0).2 ≤ 7 / 5 + 1 := by
  have h := wait_poller_soft_deadline ["n1", "n2"] exStateAt 7
  have h4 := h.2.2.2.1 (by decide)
  exact ⟨h4.1, by decide, h.1⟩

/-- C9 (confirmed): with the client session uninitialized, `list_labs`,
`create_lab`, `get_node_interfaces`, `create_link_v3`, `link_nodes` and
`wait_for_lab_nodes` all return their initialize-first error result and
issue zero HTTP requests. -/
theorem uninitialized_client_issues_no_requests
    (labs : List (String × LabInfo)) (respId : Option String) (v : RespShape)
    (o1 o2 : AttemptOutcome) (nodeA nodeB : String) (ifA ifB : RespShape)
    (detail : String → InterfaceData) (post : String → String → AttemptOutcome)
    (ld : LabDetailsResp) (nr : NodesResp) (stateAt : Nat → String → String) (timeout : Nat) :
    list_labs false labs = (errNotInitMsg, 0) ∧
    create_lab false respId = (CreateLabResult.errNotInit, 0) ∧
    get_node_interfaces false v = (GNIResult.errNotInit, 0) ∧
    create_link_v3 false o1 o2 = (CLV3Result.errNotInit, []) ∧
    link_nodes false nodeA nodeB ifA ifB detail post = (LNResult.errNotInit, []) ∧
    wait_for_lab_nodes false ld nr stateAt timeout =
      { msg := errNotInitMsg, nodeSetFetches := 0, polls := 0, sleeps := 0 } := by
  exact ⟨rfl, rfl, rfl, rfl, rfl, rfl⟩

/-- C10 (confirmed): an empty string response normalizes in
`get_node_interfaces` to the empty identifier sequence — zero chunks, since
length 0 is an exact multiple of 36 — not to a one-element sequence and not
to an error. -/
theorem gni_empty_string_yields_empty_sequence :
    gniNormalize (RespShape.vstr "") = RespShape.vlist [] ∧ chunks36 "" = [] := by
  decide
